import Mathlib

/-!
Verification development for the virtual-warehouse core: a shallow embedding
of the frequency aggregator (heatmap.py), the unit normalizer
(parser/utils.py) and the entity store with its query operations
(data/data_model.py), together with theorems settling the specified
properties of each component.

Python dictionaries are modelled as insertion-ordered association lists,
Python floats as rationals with exact arithmetic, and Python exceptions as
Option or Except results.
-/

namespace VirtualWarehouse

/-- Inventory record as consumed by the heat-map aggregation; only the
item id field is read by item_locations. -/
structure InvR where
  item_id : String
deriving DecidableEq, Repr

/-- Ordered item as consumed by the aggregation loop: the item id and the
total quantity added onto each crediting location. -/
structure OrderR where
  item_id : String
  total_qty : Int
deriving DecidableEq, Repr

/-- The balance input: a dict from date to a dict from location id to the
inventory record, in insertion order.  Dates are modelled as naturals
(ordinal encoding of the calendar date). -/
abbrev Balance := List (Nat × List (String × InvR))

/-- The locations dict restricted to the field the aggregator mutates:
location id mapped to its freq counter. -/
abbrev Freqs := List (String × Int)

/-- Inner step of item_locations: append loc to the bucket of item,
creating the bucket at the end when absent (dict-of-lists semantics,
insertion ordered). -/
def addLoc : List (String × List String) → String → String → List (String × List String)
  | [], item, loc => [(item, [loc])]
  | (k, ls) :: rest, item, loc =>
      if k = item then (k, ls ++ [loc]) :: rest
      else (k, ls) :: addLoc rest item loc

/-- Per-date body of item_locations: fold the dict of (loc_id, inventory)
pairs into the item-to-locations multimap. -/
def group_by_item (bl : List (String × InvR)) : List (String × List String) :=
  bl.foldl (fun m p => addLoc m p.2.item_id p.1) []

/-- Embedding of item_locations from heatmap.py: for every date in balance
build the dict mapping each item id to the list of location ids holding it
on that date.  The locations and items arguments are unused, as in the
source. -/
def item_locations (locations : Freqs) (items : List String) (balance : Balance) :
    List (Nat × List (String × List String)) :=
  balance.map (fun p => (p.1, group_by_item p.2))

/-- locations[loc].freq += q: add q to the freq of loc; a location id
absent from the dict is a KeyError, modelled as none. -/
def bumpFreq : Freqs → String → Int → Option Freqs
  | [], _, _ => none
  | (k, f) :: rest, loc, q =>
      if k = loc then some ((k, f + q) :: rest)
      else (bumpFreq rest loc q).map (fun r => (k, f) :: r)

/-- The accumulation loop of calculate_frquencies over the selected date
map dmap: for every order, look its item up in dmap (KeyError when absent,
modelled as none) and credit every location in the bucket. -/
def accumulate (locations : Freqs) (dmap : List (String × List String))
    (orders : List (String × OrderR)) : Option Freqs :=
  orders.foldlM
    (fun locs p =>
      match dmap.lookup p.2.item_id with
      | none => none
      | some ll => ll.foldlM (fun ls loc => bumpFreq ls loc p.2.total_qty) locs)
    locations

/-- Embedding of calculate_frquencies from heatmap.py.  The date is taken
as the LAST key of the item_locs dict (insertion order); taking the last
element of an empty key list is an IndexError, modelled as none.  The
result is the locations dict with updated freq fields, or none when the
Python code raises. -/
def calculate_frquencies (locations : Freqs) (items : List String) (balance : Balance)
    (orders : List (String × OrderR)) : Option Freqs :=
  let item_locs := item_locations locations items balance
  match (item_locs.map Prod.fst).getLast? with
  | none => none
  | some date =>
      match item_locs.lookup date with
      | none => none
      | some dmap => accumulate locations dmap orders

/-- The snapshot-selection step of the aggregator in isolation: the date
the code picks, when one exists. -/
def selected_date (locations : Freqs) (items : List String) (balance : Balance) :
    Option Nat :=
  ((item_locations locations items balance).map Prod.fst).getLast?

/-- Modelled from the spec (for comparison in C1 only): the most recent
calendar date present among the Inventory records, i.e. the maximum of the
date keys of balance. -/
def spec_latest_date (balance : Balance) : Option Nat :=
  (balance.map Prod.fst).max?

/-- Balance whose dates arrive in decreasing calendar order: date 2 first,
date 1 last. -/
def balC1 : Balance := [(2, [("L1", ⟨"I1"⟩)]), (1, [("L2", ⟨"I1"⟩)])]

/-- Two locations, both with freq 0. -/
def locsC1 : Freqs := [("L1", 0), ("L2", 0)]

/-- One order of five units of item I1. -/
def ordsC1 : List (String × OrderR) := [("O1", ⟨"I1", 5⟩)]

/-- Keys of the mapped balance are the keys of balance. -/
theorem item_locations_keys (locations : Freqs) (items : List String) (balance : Balance) :
    (item_locations locations items balance).map Prod.fst = balance.map Prod.fst := by
  simp [item_locations, List.map_map, Function.comp]

/-- Looking a key up in an entrywise-mapped association list maps the
looked-up value. -/
theorem lookup_map_value {α β γ : Type} [BEq α] (l : List (α × β)) (f : β → γ) (k : α) :
    (l.map (fun p => (p.1, f p.2))).lookup k = (l.lookup k).map f := by
  induction l with
  | nil => rfl
  | cons hd tl ih =>
      simp only [List.map, List.lookup]
      split <;> simp [ih]

/-- C1 counterexample: with dates inserted in the order [2, 1], the
snapshot-selection step picks date 1 (the last key in insertion order)
while the most recent calendar date is 2, and accordingly the aggregation
credits L2 (the date-1 location) rather than L1. -/
theorem c1_counterexample :
    selected_date locsC1 [] balC1 = some 1 ∧
    spec_latest_date balC1 = some 2 ∧
    calculate_frquencies locsC1 [] balC1 ordsC1 = some [("L1", 0), ("L2", 5)] := by
  refine ⟨by decide, by decide, by decide⟩

/-- C1 (amended): the snapshot-selection step selects the last date key of
the balance mapping in insertion order, and only the Inventory records
stored under that key populate the item-to-location map used for
accumulation. -/
theorem calculate_frquencies_uses_insertion_last_date
    (locations : Freqs) (items : List String) (balance : Balance)
    (orders : List (String × OrderR)) (d : Nat) (bl : List (String × InvR))
    (hd : (balance.map Prod.fst).getLast? = some d)
    (hb : balance.lookup d = some bl) :
    calculate_frquencies locations items balance orders
      = accumulate locations (group_by_item bl) orders := by
  have hl : (item_locations locations items balance).lookup d = some (group_by_item bl) := by
    simp only [item_locations]
    rw [lookup_map_value balance group_by_item d, hb]
    rfl
  simp only [calculate_frquencies, item_locations_keys, hd, hl]

/-- Witness for the amended C1 theorem at the concrete counterexample
data: the selected date is 1 and the aggregation reduces to accumulation
over the date-1 records. -/
theorem c1_witness :
    (balC1.map Prod.fst).getLast? = some 1 ∧
    balC1.lookup 1 = some [("L2", ⟨"I1"⟩)] ∧
    calculate_frquencies locsC1 [] balC1 ordsC1
      = accumulate locsC1 (group_by_item [("L2", ⟨"I1"⟩)]) ordsC1 :=
  ⟨by decide, by decide,
    calculate_frquencies_uses_insertion_last_date locsC1 [] balC1 ordsC1 1
      [("L2", ⟨"I1"⟩)] (by decide) (by decide)⟩

/-- Balance with a single date 1 holding only item I1 at L1. -/
def balC2 : Balance := [(1, [("L1", ⟨"I1"⟩)])]

/-- C2: an order for an item with no Inventory entry on the selected date
makes the whole pass fail (the dict access item_locs[date][o.item_id] is a
KeyError), contradicting the required contribute-zero behaviour. -/
theorem c2_missing_item_fails :
    calculate_frquencies [("L1", 0)] [] balC2 [("O1", ⟨"I2", 5⟩)] = none := by
  decide

/-- C3: on an empty balance the aggregator fails (taking the last element
of the empty key list is an IndexError) instead of being a no-op. -/
theorem c3_empty_balance_fails (locations : Freqs) (items : List String)
    (orders : List (String × OrderR)) :
    calculate_frquencies locations items [] orders = none := rfl

/-- The Python exceptions the embedded code can raise, together with the
DanglingReference label from the error taxonomy of the design, which the
code itself never raises. -/
inductive PyError where
  | invalidUnit
  | invalidDate
  | attributeError
  | danglingReference
deriving DecidableEq, Repr

/-- The length-unit factor table dim_factors from parser/utils.py. -/
def dim_factors : List (String × ℚ) :=
  [("m", 1), ("meters", 1), ("dm", 1/10), ("cm", 1/100), ("mm", 1/1000)]

/-- The weight-unit factor table weight_factors from parser/utils.py. -/
def weight_factors : List (String × ℚ) :=
  [("kg", 1), ("g", 1/1000)]

/-- Model of the Python str.lower method: ASCII case folding applied to
each character of the string. -/
def pyLower (s : String) : String := String.mk (s.data.map Char.toLower)

/-- Embedding of convert_dim: an absent or empty unit string is falsy and
the value passes through; otherwise the lowercased unit is looked up in
dim_factors, an unknown unit being a KeyError (the InvalidUnit failure of
the design). -/
def convert_dim (dim : ℚ) (uom : Option String) : Except PyError ℚ :=
  match uom with
  | none => .ok dim
  | some s =>
      if s = "" then .ok dim
      else
        match dim_factors.lookup (pyLower s) with
        | some f => .ok (dim * f)
        | none => .error .invalidUnit

/-- Embedding of convert_weight, analogous to convert_dim over
weight_factors. -/
def convert_weight (weight : ℚ) (uom : Option String) : Except PyError ℚ :=
  match uom with
  | none => .ok weight
  | some s =>
      if s = "" then .ok weight
      else
        match weight_factors.lookup (pyLower s) with
        | some f => .ok (weight * f)
        | none => .error .invalidUnit

/-- C5: for every value and every unit spelling whose lowercasing is a
recognized length unit, convert_dim returns value * factor; for every
non-empty unrecognized unit string it fails with the InvalidUnit error. -/
theorem convert_dim_normalizes :
    (∀ (d : ℚ) (s : String) (f : ℚ),
        dim_factors.lookup (pyLower s) = some f →
        convert_dim d (some s) = .ok (d * f)) ∧
    (∀ (d : ℚ) (s : String), s ≠ "" →
        dim_factors.lookup (pyLower s) = none →
        convert_dim d (some s) = .error .invalidUnit) := by
  constructor
  · intro d s f h
    have hs : s ≠ "" := by
      intro he
      rw [he] at h
      have hnone : dim_factors.lookup (pyLower "") = none := rfl
      rw [hnone] at h
      exact Option.noConfusion h
    simp only [convert_dim, if_neg hs, h]
  · intro d s hs h
    simp only [convert_dim, if_neg hs, h]

/-- Witness for C5 at concrete inputs: the spelling CM lowercases to the
recognized centimeter entry and converts by factor 1/100, while the
spelling yards is unrecognized and fails. -/
theorem convert_dim_normalizes_witness :
    (dim_factors.lookup (pyLower "CM") = some (1/100) ∧
      convert_dim 3 (some "CM") = .ok (3 * (1/100))) ∧
    ("yards" ≠ "" ∧ dim_factors.lookup (pyLower "yards") = none ∧
      convert_dim 3 (some "yards") = .error .invalidUnit) :=
  ⟨⟨rfl, convert_dim_normalizes.1 3 "CM" (1/100) rfl⟩,
    ⟨by decide, rfl,
      convert_dim_normalizes.2 3 "yards" (by decide) rfl⟩⟩

/-- Ontology state: the ids of the registered individuals of the classes
relevant to Inventory.create. -/
structure Onto where
  locations : List String
  items : List String
  inventories : List String
deriving DecidableEq, Repr

/-- onto.search_one(iri=BASE_IRI#id): the individual with the given name,
when registered; none otherwise.  No error is raised for a missing id. -/
def searchOne (st : Onto) (id : String) : Option String :=
  if id ∈ st.locations ∨ id ∈ st.items ∨ id ∈ st.inventories then some id else none

/-- Split a character list on dots, the groups in order (model of the
field splitting performed by strptime on the dd.mm.yyyy format). -/
def splitDots : List Char → List (List Char)
  | [] => [[]]
  | c :: rest =>
      match splitDots rest with
      | [] => []
      | g :: gs => if c = '.' then [] :: g :: gs else (c :: g) :: gs

/-- Parse a nonempty all-digit character group as a natural number. -/
def charsToNat? (cs : List Char) : Option Nat :=
  if cs ≠ [] ∧ cs.all Char.isDigit then
    some (cs.foldl (fun n c => 10 * n + (c.toNat - 48)) 0)
  else none

/-- Model of datetime.strptime with the fixed format dd.mm.yyyy: three
dot-separated numeric fields with day and month range checks; a mismatch
is a ValueError (the InvalidDate failure of the design). -/
def strptimeDMY (s : String) : Except PyError (Nat × Nat × Nat) :=
  match splitDots s.data with
  | [ds, ms, ys] =>
      match charsToNat? ds, charsToNat? ms, charsToNat? ys with
      | some dd, some mm, some yy =>
          if 1 ≤ dd ∧ dd ≤ 31 ∧ 1 ≤ mm ∧ mm ≤ 12 then .ok (dd, mm, yy)
          else .error .invalidDate
      | _, _, _ => .error .invalidDate
  | _ => .error .invalidDate

/-- Embedding of convert_date from parser/utils.py with the fixed format
used by Inventory.create: an empty string is falsy and yields none; a
non-empty string is parsed by strptime. -/
def convert_date (date : String) : Except PyError (Option (Nat × Nat × Nat)) :=
  if date = "" then .ok none
  else (strptimeDMY date).map some

/-- Every failure of strptimeDMY is the InvalidDate error. -/
theorem strptimeDMY_error (s : String) (e : PyError)
    (h : strptimeDMY s = .error e) : e = .invalidDate := by
  unfold strptimeDMY at h
  repeat' split at h
  all_goals first
    | exact Except.noConfusion h
    | (injection h with h2; exact h2.symm)

/-- Every failure of convert_date is the InvalidDate error. -/
theorem convert_date_error (s : String) (e : PyError)
    (h : convert_date s = .error e) : e = .invalidDate := by
  unfold convert_date at h
  split at h
  · exact Except.noConfusion h
  · rcases hp : strptimeDMY s with e1 | v1
    · rw [hp] at h
      injection h with h2
      rw [← h2]
      exact strptimeDMY_error s e1 hp
    · rw [hp] at h
      exact Except.noConfusion h

namespace Inventory

/-- Embedding of Inventory.create from data_model.py.  Both date strings
are converted, the item and location ids are looked up with search_one (a
missing id silently yields an absent reference, not an error), and then
the individual name is built by the f-string calling date.strftime on the
raw str argument date, which raises AttributeError, so the construction
itself is never reached and the ontology is never extended. -/
def create (st : Onto) (date : String) (location_id : String) (ltype : String)
    (item_id : String) (expiry_date : String)
    (available_qty onhand_qty transit_qty allocated_qty suspense_qty : Int) :
    Except PyError Onto := do
  let _date_t ← convert_date date
  let _expiry ← convert_date expiry_date
  let _item := searchOne st item_id
  let _location := searchOne st location_id
  .error .attributeError

end Inventory

/-- A store holding location L1 and item I1 and no inventories. -/
def ontoC4 : Onto := ⟨["L1"], ["I1"], []⟩

/-- C4 counterexample: inserting an Inventory whose location id L404 does
not resolve fails with AttributeError, not with the DanglingReference
error the claim requires. -/
theorem c4_counterexample :
    Inventory.create ontoC4 "01.01.2023" "L404" "rack" "I1" "" 1 1 0 0 0
      = .error .attributeError ∧
    PyError.attributeError ≠ PyError.danglingReference := by
  refine ⟨rfl, by decide⟩

/-- C4 (amended): Inventory.create validates no reference at all and never
raises DanglingReference; instead every attempted insert fails, with
InvalidDate for a malformed date string or otherwise with AttributeError
from building the id via strftime on the raw date argument, and the store
(hence its Location and Item counts) is left untouched because the error
occurs before any individual is constructed. -/
theorem inventory_create_always_fails (st : Onto)
    (date location_id ltype item_id expiry_date : String)
    (a b c d e : Int) :
    ∃ err, Inventory.create st date location_id ltype item_id expiry_date a b c d e
        = .error err ∧ err ≠ PyError.danglingReference := by
  unfold Inventory.create
  rcases h1 : convert_date date with e1 | v1
  · refine ⟨e1, ?_, ?_⟩
    · simp [h1, Bind.bind, Except.bind]
    · rw [convert_date_error date e1 h1]
      decide
  · rcases h2 : convert_date expiry_date with e2 | v2
    · refine ⟨e2, ?_, ?_⟩
      · simp [h1, h2, Bind.bind, Except.bind]
      · rw [convert_date_error expiry_date e2 h2]
        decide
    · exact ⟨.attributeError, by simp [h1, h2, Bind.bind, Except.bind], by decide⟩

/-- The triples over which the SPARQL join queries of data_model.py run:
has_location relates an Inventory individual to a Location, has_item
relates an Inventory or an OrderedItem to an Item (one shared property, as
in the source), and has_ordered_items relates an Order to an OrderedItem.
All individuals are identified by their ids. -/
structure TripleStore where
  hasLocation : List (String × String)
  hasItem : List (String × String)
  hasOrderedItems : List (String × String)
deriving DecidableEq, Repr

namespace Item

/-- Item.get_by_locations: SELECT DISTINCT of the item variable over
VALUES loc, inv has_location loc, inv has_item item. -/
def get_by_locations (st : TripleStore) (locations : List String) : List String :=
  (locations.flatMap (fun loc =>
    (st.hasLocation.filter (fun il => il.2 == loc)).flatMap (fun il =>
      (st.hasItem.filter (fun ii => ii.1 == il.1)).map (fun ii => ii.2)))).dedup

/-- Item.get_by_orders: SELECT DISTINCT of the item variable over
VALUES ord, ord has_ordered_items oi, oi has_item item. -/
def get_by_orders (st : TripleStore) (orders : List String) : List String :=
  (orders.flatMap (fun ord =>
    (st.hasOrderedItems.filter (fun ooi => ooi.1 == ord)).flatMap (fun ooi =>
      (st.hasItem.filter (fun ii => ii.1 == ooi.2)).map (fun ii => ii.2)))).dedup

end Item

namespace Location

/-- Location.get_by_orders: SELECT DISTINCT of the loc variable over
VALUES ord, ord has_ordered_items oi, oi has_item item, inv has_item item,
inv has_location loc (the 3-hop join). -/
def get_by_orders (st : TripleStore) (orders : List String) : List String :=
  (orders.flatMap (fun ord =>
    (st.hasOrderedItems.filter (fun ooi => ooi.1 == ord)).flatMap (fun ooi =>
      (st.hasItem.filter (fun ii => ii.1 == ooi.2)).flatMap (fun ii =>
        (st.hasItem.filter (fun ii2 => ii2.2 == ii.2)).flatMap (fun ii2 =>
          (st.hasLocation.filter (fun il => il.1 == ii2.1)).map
            (fun il => il.2)))))).dedup

/-- Location.get_by_items: SELECT DISTINCT of the loc variable over
VALUES item, inv has_item item, inv has_location loc. -/
def get_by_items (st : TripleStore) (items : List String) : List String :=
  (items.flatMap (fun item =>
    (st.hasItem.filter (fun ii => ii.2 == item)).flatMap (fun ii =>
      (st.hasLocation.filter (fun il => il.1 == ii.1)).map (fun il => il.2)))).dedup

end Location

namespace Order

/-- Order.get_by_items: SELECT DISTINCT of the ord variable over
VALUES item, oi has_item item, ord has_ordered_items oi. -/
def get_by_items (st : TripleStore) (items : List String) : List String :=
  (items.flatMap (fun item =>
    (st.hasItem.filter (fun ii => ii.2 == item)).flatMap (fun ii =>
      (st.hasOrderedItems.filter (fun ooi => ooi.2 == ii.1)).map
        (fun ooi => ooi.1)))).dedup

/-- Order.get_by_locations: SELECT DISTINCT of the ord variable over
VALUES loc, inv has_location loc, inv has_item item, oi has_item item,
ord has_ordered_items oi (the inverse 3-hop join). -/
def get_by_locations (st : TripleStore) (locations : List String) : List String :=
  (locations.flatMap (fun loc =>
    (st.hasLocation.filter (fun il => il.2 == loc)).flatMap (fun il =>
      (st.hasItem.filter (fun ii => ii.1 == il.1)).flatMap (fun ii =>
        (st.hasItem.filter (fun ii2 => ii2.2 == ii.2)).flatMap (fun ii2 =>
          (st.hasOrderedItems.filter (fun ooi => ooi.2 == ii2.1)).map
            (fun ooi => ooi.1)))))).dedup

end Order

/-- C6: all six query operations end in the DISTINCT projection, so on
every store and every input their result lists carry no duplicate entity
ids. -/
theorem queries_return_no_duplicates (st : TripleStore)
    (locs ords items : List String) :
    (Item.get_by_locations st locs).Nodup ∧
    (Item.get_by_orders st ords).Nodup ∧
    (Location.get_by_items st items).Nodup ∧
    (Location.get_by_orders st ords).Nodup ∧
    (Order.get_by_items st items).Nodup ∧
    (Order.get_by_locations st locs).Nodup :=
  ⟨List.nodup_dedup _, List.nodup_dedup _, List.nodup_dedup _,
    List.nodup_dedup _, List.nodup_dedup _, List.nodup_dedup _⟩

/-- C7: the two 3-hop joins are adjoint: whenever location L is reachable
from the singleton order set containing O, order O is reachable from the
singleton location set containing L, over the same store. -/
theorem locations_orders_adjoint (st : TripleStore) (L O : String)
    (h : L ∈ Location.get_by_orders st [O]) :
    O ∈ Order.get_by_locations st [L] := by
  simp only [Location.get_by_orders, Order.get_by_locations, List.mem_dedup,
    List.mem_flatMap, List.mem_filter, List.mem_map, List.mem_singleton,
    beq_iff_eq] at h ⊢
  obtain ⟨ord, hord, ooi, ⟨hooi, hooi1⟩, ii, ⟨hii, hii1⟩, ii2, ⟨hii2, hii22⟩,
    il, ⟨⟨hil, hil1⟩, hil2⟩⟩ := h
  subst hord
  exact ⟨L, rfl, il, ⟨hil, hil2⟩, ii2, ⟨hii2, hil1.symm⟩, ii, ⟨hii, hii22.symm⟩,
    ooi, ⟨⟨hooi, hii1.symm⟩, hooi1⟩⟩

/-- Store with one order O1 owning ordered item OI1 of item I1, and one
inventory INV1 placing I1 at location L1. -/
def tsC7 : TripleStore :=
  ⟨[("INV1", "L1")], [("OI1", "I1"), ("INV1", "I1")], [("O1", "OI1")]⟩

/-- Witness for C7 on the concrete store tsC7: L1 is reached from order
O1, hence the theorem yields O1 back from location L1. -/
theorem locations_orders_adjoint_witness :
    ("L1" ∈ Location.get_by_orders tsC7 ["O1"]) ∧
    ("O1" ∈ Order.get_by_locations tsC7 ["L1"]) :=
  ⟨by decide, locations_orders_adjoint tsC7 "L1" "O1" (by decide)⟩

/-- The entity kinds held by the ontology store. -/
inductive Kind where
  | location
  | item
  | itemUnit
  | order
  | orderedItem
  | inventory
deriving DecidableEq, Repr

/-- Ontology state listing the registered individuals of every kind. -/
structure OntoState where
  locations : List String
  items : List String
  itemUnits : List String
  orders : List String
  orderedItems : List String
  inventories : List String
deriving DecidableEq, Repr

/-- Embedding of the module-level destroy_all of data_model.py: destroy
every instance of the given class. -/
def destroy_all (k : Kind) (st : OntoState) : OntoState :=
  match k with
  | .location => { st with locations := [] }
  | .item => { st with items := [] }
  | .itemUnit => { st with itemUnits := [] }
  | .order => { st with orders := [] }
  | .orderedItem => { st with orderedItems := [] }
  | .inventory => { st with inventories := [] }

/-- Item.destroy_all: destroy all Item instances and then all ItemUnit
instances, in source order. -/
def Item.destroy_all (st : OntoState) : OntoState :=
  VirtualWarehouse.destroy_all .itemUnit (VirtualWarehouse.destroy_all .item st)

/-- Order.destroy_all: destroy all Order instances and then all
OrderedItem instances, in source order. -/
def Order.destroy_all (st : OntoState) : OntoState :=
  VirtualWarehouse.destroy_all .orderedItem (VirtualWarehouse.destroy_all .order st)

/-- Location.destroy_all: destroy all Location instances (Location owns
no dependents). -/
def Location.destroy_all (st : OntoState) : OntoState :=
  VirtualWarehouse.destroy_all .location st

/-- C8: on every store state, removing all Items also removes every
ItemUnit, and removing all Orders also removes every OrderedItem, so no
exclusively owned dependent survives the removal. -/
theorem destroy_all_cascades (st : OntoState) :
    (Item.destroy_all st).items = [] ∧
    (Item.destroy_all st).itemUnits = [] ∧
    (Order.destroy_all st).orders = [] ∧
    (Order.destroy_all st).orderedItems = [] :=
  ⟨rfl, rfl, rfl, rfl⟩

/-- The fixed 256-entry viridis palette of heatmap.py: three bytes per
color, 768 byte values in total. -/
def VIRIDIS_COLORS : List Nat := [
  68, 1, 84, 68, 2, 85, 68, 3, 87, 69, 5, 88, 69, 6, 90, 69,
  8, 91, 70, 9, 92, 70, 11, 94, 70, 12, 95, 70, 14, 97, 71, 15,
  98, 71, 17, 99, 71, 18, 101, 71, 20, 102, 71, 21, 103, 71, 22, 105,
  71, 24, 106, 72, 25, 107, 72, 26, 108, 72, 28, 110, 72, 29, 111, 72,
  30, 112, 72, 32, 113, 72, 33, 114, 72, 34, 115, 72, 35, 116, 71, 37,
  117, 71, 38, 118, 71, 39, 119, 71, 40, 120, 71, 42, 121, 71, 43, 122,
  71, 44, 123, 70, 45, 124, 70, 47, 124, 70, 48, 125, 70, 49, 126, 69,
  50, 127, 69, 52, 127, 69, 53, 128, 69, 54, 129, 68, 55, 129, 68, 57,
  130, 67, 58, 131, 67, 59, 131, 67, 60, 132, 66, 61, 132, 66, 62, 133,
  66, 64, 133, 65, 65, 134, 65, 66, 134, 64, 67, 135, 64, 68, 135, 63,
  69, 135, 63, 71, 136, 62, 72, 136, 62, 73, 137, 61, 74, 137, 61, 75,
  137, 61, 76, 137, 60, 77, 138, 60, 78, 138, 59, 80, 138, 59, 81, 138,
  58, 82, 139, 58, 83, 139, 57, 84, 139, 57, 85, 139, 56, 86, 139, 56,
  87, 140, 55, 88, 140, 55, 89, 140, 54, 90, 140, 54, 91, 140, 53, 92,
  140, 53, 93, 140, 52, 94, 141, 52, 95, 141, 51, 96, 141, 51, 97, 141,
  50, 98, 141, 50, 99, 141, 49, 100, 141, 49, 101, 141, 49, 102, 141, 48,
  103, 141, 48, 104, 141, 47, 105, 141, 47, 106, 141, 46, 107, 142, 46, 108,
  142, 46, 109, 142, 45, 110, 142, 45, 111, 142, 44, 112, 142, 44, 113, 142,
  44, 114, 142, 43, 115, 142, 43, 116, 142, 42, 117, 142, 42, 118, 142, 42,
  119, 142, 41, 120, 142, 41, 121, 142, 40, 122, 142, 40, 122, 142, 40, 123,
  142, 39, 124, 142, 39, 125, 142, 39, 126, 142, 38, 127, 142, 38, 128, 142,
  38, 129, 142, 37, 130, 142, 37, 131, 141, 36, 132, 141, 36, 133, 141, 36,
  134, 141, 35, 135, 141, 35, 136, 141, 35, 137, 141, 34, 137, 141, 34, 138,
  141, 34, 139, 141, 33, 140, 141, 33, 141, 140, 33, 142, 140, 32, 143, 140,
  32, 144, 140, 32, 145, 140, 31, 146, 140, 31, 147, 139, 31, 148, 139, 31,
  149, 139, 31, 150, 139, 30, 151, 138, 30, 152, 138, 30, 153, 138, 30, 153,
  138, 30, 154, 137, 30, 155, 137, 30, 156, 137, 30, 157, 136, 30, 158, 136,
  30, 159, 136, 30, 160, 135, 31, 161, 135, 31, 162, 134, 31, 163, 134, 32,
  164, 133, 32, 165, 133, 33, 166, 133, 33, 167, 132, 34, 167, 132, 35, 168,
  131, 35, 169, 130, 36, 170, 130, 37, 171, 129, 38, 172, 129, 39, 173, 128,
  40, 174, 127, 41, 175, 127, 42, 176, 126, 43, 177, 125, 44, 177, 125, 46,
  178, 124, 47, 179, 123, 48, 180, 122, 50, 181, 122, 51, 182, 121, 53, 183,
  120, 54, 184, 119, 56, 185, 118, 57, 185, 118, 59, 186, 117, 61, 187, 116,
  62, 188, 115, 64, 189, 114, 66, 190, 113, 68, 190, 112, 69, 191, 111, 71,
  192, 110, 73, 193, 109, 75, 194, 108, 77, 194, 107, 79, 195, 105, 81, 196,
  104, 83, 197, 103, 85, 198, 102, 87, 198, 101, 89, 199, 100, 91, 200, 98,
  94, 201, 97, 96, 201, 96, 98, 202, 95, 100, 203, 93, 103, 204, 92, 105,
  204, 91, 107, 205, 89, 109, 206, 88, 112, 206, 86, 114, 207, 85, 116, 208,
  84, 119, 208, 82, 121, 209, 81, 124, 210, 79, 126, 210, 78, 129, 211, 76,
  131, 211, 75, 134, 212, 73, 136, 213, 71, 139, 213, 70, 141, 214, 68, 144,
  214, 67, 146, 215, 65, 149, 215, 63, 151, 216, 62, 154, 216, 60, 157, 217,
  58, 159, 217, 56, 162, 218, 55, 165, 218, 53, 167, 219, 51, 170, 219, 50,
  173, 220, 48, 175, 220, 46, 178, 221, 44, 181, 221, 43, 183, 221, 41, 186,
  222, 39, 189, 222, 38, 191, 223, 36, 194, 223, 34, 197, 223, 33, 199, 224,
  31, 202, 224, 30, 205, 224, 29, 207, 225, 28, 210, 225, 27, 212, 225, 26,
  215, 226, 25, 218, 226, 24, 220, 226, 24, 223, 227, 24, 225, 227, 24, 228,
  227, 24, 231, 228, 25, 233, 228, 25, 236, 228, 26, 238, 229, 27, 241, 229,
  28, 243, 229, 30, 246, 230, 31, 248, 230, 33, 250, 230, 34, 253, 231, 36
]

/-- Uppercase hexadecimal digit for n below 16. -/
def toHexDigit (n : Nat) : Char :=
  if n < 10 then Char.ofNat (48 + n) else Char.ofNat (55 + n)

/-- Two-digit uppercase hexadecimal rendering of a byte value, the 02X
format specifier of the f-string. -/
def toHex2 (n : Nat) : String :=
  String.mk [toHexDigit (n / 16 % 16), toHexDigit (n % 16)]

/-- Python int() applied to a rational: truncation toward zero. -/
def pyInt (q : ℚ) : ℤ := if 0 ≤ q then ⌊q⌋ else -⌊-q⌋

/-- Embedding of get_heatmap_color from heatmap.py: quantize the 0-1
value to an index by int(val * 255), read the three palette bytes at that
index and render them as an #RRGGBB string. -/
def get_heatmap_color (val : ℚ) : String :=
  let v := (pyInt (val * 255)).toNat
  let r := VIRIDIS_COLORS.getD (3 * v) 0
  let g := VIRIDIS_COLORS.getD (3 * v + 1) 0
  let b := VIRIDIS_COLORS.getD (3 * v + 2) 0
  "#" ++ toHex2 r ++ toHex2 g ++ toHex2 b

/-- Entry i of the fixed palette rendered as its hex color string. -/
def palette_entry (i : Nat) : String :=
  "#" ++ toHex2 (VIRIDIS_COLORS.getD (3 * i) 0)
      ++ toHex2 (VIRIDIS_COLORS.getD (3 * i + 1) 0)
      ++ toHex2 (VIRIDIS_COLORS.getD (3 * i + 2) 0)

set_option maxRecDepth 4096 in
/-- C9: the mapping is a pure function of its argument by construction;
the value 0 maps to the first entry of the 256-entry palette, the value 1
maps to the last entry, the two differ (the mapping is non-constant), and
the quantization index varies monotonically over the input range. -/
theorem get_heatmap_color_endpoints :
    (get_heatmap_color 0 = palette_entry 0 ∧
      get_heatmap_color 1 = palette_entry 255 ∧
      get_heatmap_color 0 ≠ get_heatmap_color 1) ∧
    (∀ a b : ℚ, 0 ≤ a → a ≤ b → pyInt (a * 255) ≤ pyInt (b * 255)) := by
  have h0 : pyInt ((0 : ℚ) * 255) = 0 := by
    simp [pyInt]
  have h1 : pyInt ((1 : ℚ) * 255) = 255 := by
    norm_num [pyInt]
  have e0 : get_heatmap_color 0 = palette_entry 0 := by
    simp only [get_heatmap_color, h0]
    rfl
  have e1 : get_heatmap_color 1 = palette_entry 255 := by
    simp only [get_heatmap_color, h1]
    rfl
  refine ⟨⟨e0, e1, ?_⟩, ?_⟩
  · rw [e0, e1]
    decide
  · intro a b ha hab
    have ha255 : (0 : ℚ) ≤ a * 255 := by positivity
    have hb255 : (0 : ℚ) ≤ b * 255 := le_trans ha255 (by nlinarith)
    simp only [pyInt, if_pos ha255, if_pos hb255]
    exact Int.floor_le_floor (by nlinarith)

/-- Witness for the monotonicity conjunct of C9 at the concrete inputs 0
and 1. -/
theorem get_heatmap_color_endpoints_witness :
    (0 : ℚ) ≤ 0 ∧ (0 : ℚ) ≤ 1 ∧ pyInt ((0 : ℚ) * 255) ≤ pyInt ((1 : ℚ) * 255) :=
  ⟨le_refl 0, by norm_num, get_heatmap_color_endpoints.2 0 1 (le_refl 0) (by norm_num)⟩

/-- Inventory individual as searched by Inventory.get_by_item: its name,
its has_item reference and its has_date value. -/
structure InvRecord where
  name : String
  item_id : String
  date : Nat
deriving DecidableEq, Repr

namespace Inventory

/-- Embedding of Inventory.get_by_item from data_model.py: the body runs
onto.search(type=Inventory, has_item=item), i.e. filters all Inventory
individuals by item, and never reads the date argument. -/
def get_by_item (invs : List InvRecord) (item : String) (date : Nat) :
    List InvRecord :=
  invs.filter (fun inv => inv.item_id == item)

end Inventory

/-- C10: get_by_item ignores its date parameter: any two dates give
identical results, and the result contains exactly the inventory records
of the item from all dates. -/
theorem get_by_item_ignores_date (invs : List InvRecord) (item : String)
    (d1 d2 : Nat) :
    Inventory.get_by_item invs item d1 = Inventory.get_by_item invs item d2 ∧
    ∀ inv : InvRecord, inv ∈ Inventory.get_by_item invs item d1 ↔
      (inv ∈ invs ∧ inv.item_id = item) := by
  refine ⟨rfl, ?_⟩
  intro inv
  simp [Inventory.get_by_item, List.mem_filter]

end VirtualWarehouse
